import Mathlib

/-!
Verification development for the sindex interface layer (PySiteTools).

The repository is a Python marshaling layer over a native growth-curve
library (`sindex64.dll`).  The marshaling layer itself lives in
`src/sindex/sindex_interface.py` and is embedded here faithfully,
parameterized over the native library's behaviour (`SindexDll`).  The
native computation engine is not part of the repository's sources; where
a property depends on it, the engine is modelled from the specification
(definitions whose doc comment starts with `Modelled from the spec:`).

Python `float` results of the wrapper are modelled by `PyF`: the wrapper
only ever produces either the sentinel `float('-inf')` or a value coming
back from the library, so a rational-valued model suffices.  `c_short`
argument marshaling is modelled by 16-bit signed truncation (`toShort`);
`c_char` marshaling accepts only integers in `[0, 255]` and raises
`TypeError` otherwise, so the one wrapper that uses it returns an
`Option` result, `none` standing for the raise.
-/

namespace Sindex

/-- The closed set of error kinds of the design's error taxonomy (§7 of the
design): registry lookup failures, enumeration/domain failures, numeric
failures, and the traversal terminator `EndOfSequence`. -/
inductive SindexError where
  | SiteIndexTooSmall
  | NoAnswer
  | UnknownCurve
  | UnknownSiteClass
  | UnknownFizZone
  | UnknownSpecies
  | NoConversionDefined
  | UnknownAgeType
  | InvalidEstablishmentType
  | NoDirectInverse
  | NoConvergence
  | EndOfSequence
  deriving DecidableEq, Repr

/-- The native library's error-message table, embedded from
`get_sindex_err_msg` in `sindex_interface.py` (a Python dict literal keyed
by negative status codes). -/
def error_messages : List (Int × String) :=
  [(-1, "site index <= 1.3"),
   (-2, "bhage < 0.5 (for GI)"),
   (-3, "bhage > GI range"),
   (-4, "no answer was generated"),
   (-5, "input curve is not a valid curve index"),
   (-6, "site class is unknown"),
   (-7, "FIZ code is unknown"),
   (-8, "species code is unknown"),
   (-9, "total age and GI curve"),
   (-10, "source species index is not valid, or no conversion"),
   (-11, "unknown age type"),
   (-12, "input parameter is not a valid establishment type")]

/-- Embedded from `get_sindex_err_msg`: dictionary lookup with default
`"unknown issue"` (Python `dict.get(error_code, "unknown issue")`). -/
def get_sindex_err_msg (error_code : Int) : String :=
  ((error_messages.lookup error_code).getD "unknown issue")

/-- 16-bit signed truncation: the effect of Python's `ctypes.c_short` on an
arbitrary integer argument. -/
def toShort (i : Int) : Int :=
  (i + 32768) % 65536 - 32768

/-- Python's `str.strip()` (used by the wrapper on every decoded C
string): drop leading and trailing whitespace, modelled structurally over
the character list so that concrete instances evaluate. -/
def pyStrip (s : String) : String :=
  ⟨((s.data.dropWhile Char.isWhitespace).reverse.dropWhile
      Char.isWhitespace).reverse⟩

/-- Decidable equality of tagged results. -/
instance {ε α : Type} [DecidableEq ε] [DecidableEq α] :
    DecidableEq (Except ε α) := fun a b =>
  match a, b with
  | .ok x, .ok y =>
    if h : x = y then .isTrue (by rw [h])
    else .isFalse (by intro hh; cases hh; exact h rfl)
  | .ok _, .error _ => .isFalse (by intro hh; cases hh)
  | .error _, .ok _ => .isFalse (by intro hh; cases hh)
  | .error x, .error y =>
    if h : x = y then .isTrue (by rw [h])
    else .isFalse (by intro hh; cases hh; exact h rfl)

/-- A Python float as produced by the float-returning wrapper functions:
either the error sentinel `float('-inf')` or a finite value coming back
from the native library (modelled as a rational). -/
inductive PyF where
  | negInf
  | num (q : ℚ)
  deriving DecidableEq, Repr

/-- The surface of the native library consumed by the wrapper, one field
per `Sindex_*` entry point used: index-returning calls give a `c_short`
status-or-index, string calls give a C string, numeric calls give a
status together with an out-parameter value. -/
structure SindexDll where
  firstSpecies : Int
  nextSpecies : Int → Int
  specCode : Int → String
  specName : Int → String
  defCurve : Int → Int
  defCurveEst : Int → Int → Int
  defGICurve : Int → Int
  firstCurve : Int → Int
  nextCurve : Int → Int → Int
  curveName : Int → String
  curveSource : Int → String
  curveNotes : Int → String
  htAgeToSI : Int → ℚ → Int → ℚ → Int → Int × ℚ
  htSIToAge : Int → ℚ → Int → ℚ → ℚ → Int × ℚ
  ageSIToHt : Int → ℚ → Int → ℚ → ℚ → Int × ℚ
  y2bh : Int → ℚ → Int × ℚ
  siToSI : Int → ℚ → Int → Int × ℚ
  scToSI : Int → Int → Int → Int × ℚ

/-- Embedded from `get_first_species`: negative statuses are mapped to the
sentinel `-1`, other results are returned unchanged. -/
def get_first_species (dll : SindexDll) : Int :=
  let result := dll.firstSpecies
  if result < 0 then -1 else result

/-- Embedded from `get_next_species`: status `-4` ("last defined") is mapped
to `-1`, every other negative status is also mapped to `-1`, nonnegative
results are returned unchanged. -/
def get_next_species (dll : SindexDll) (idx : Int) : Int :=
  let result := dll.nextSpecies (toShort idx)
  if result = -4 then -1
  else if result < 0 then -1
  else result

/-- Embedded from `get_species_code`: the C string returned by the library
is decoded and stripped; there is no error branch. -/
def get_species_code (dll : SindexDll) (species_idx : Int) : String :=
  pyStrip (dll.specCode (toShort species_idx))

/-- Embedded from `get_species_name`: the C string returned by the library
is decoded and stripped; there is no error branch. -/
def get_species_name (dll : SindexDll) (species_idx : Int) : String :=
  pyStrip (dll.specName (toShort species_idx))

/-- Embedded from `get_def_curve`. -/
def get_def_curve (dll : SindexDll) (species_idx : Int) : Int :=
  let result := dll.defCurve (toShort species_idx)
  if result < 0 then -1 else result

/-- Embedded from `get_def_curve_est`. -/
def get_def_curve_est (dll : SindexDll) (species_idx regen_type : Int) : Int :=
  let result := dll.defCurveEst (toShort species_idx) (toShort regen_type)
  if result < 0 then -1 else result

/-- Embedded from `get_def_gi_curve`. -/
def get_def_gi_curve (dll : SindexDll) (species_idx : Int) : Int :=
  let result := dll.defGICurve (toShort species_idx)
  if result < 0 then -1 else result

/-- Embedded from `get_first_curve`. -/
def get_first_curve (dll : SindexDll) (species_idx : Int) : Int :=
  let result := dll.firstCurve (toShort species_idx)
  if result < 0 then -1 else result

/-- Embedded from `get_next_curve`: status `-4` ("last defined curve for
this species") is mapped to `-1`, every other negative status is also
mapped to `-1`, nonnegative results are returned unchanged. -/
def get_next_curve (dll : SindexDll) (species_idx curve_idx : Int) : Int :=
  let result := dll.nextCurve (toShort species_idx) (toShort curve_idx)
  if result = -4 then -1
  else if result < 0 then -1
  else result

/-- Embedded from `get_curve_name`: string decode and strip, no error
branch. -/
def get_curve_name (dll : SindexDll) (curve_idx : Int) : String :=
  pyStrip (dll.curveName (toShort curve_idx))

/-- Embedded from `get_curve_source`: string decode and strip, no error
branch. -/
def get_curve_source (dll : SindexDll) (curve_idx : Int) : String :=
  pyStrip (dll.curveSource (toShort curve_idx))

/-- Embedded from `get_curve_notes`: string decode and strip, no error
branch. -/
def get_curve_notes (dll : SindexDll) (curve_idx : Int) : String :=
  pyStrip (dll.curveNotes (toShort curve_idx))

/-- Embedded from `calc_site` (`Sindex_HtAgeToSI`): a negative status
collapses to the sentinel `float('-inf')`, otherwise the out-parameter is
returned. -/
def calc_site (dll : SindexDll) (species_idx : Int) (height age : ℚ)
    (use_bh estimate_type : Int) : PyF :=
  let r := dll.htAgeToSI (toShort species_idx) age (toShort use_bh) height
    (toShort estimate_type)
  if r.1 < 0 then .negInf else .num r.2

/-- Embedded from `calc_age` (`Sindex_HtSIToAge`): a negative status
collapses to the sentinel `float('-inf')`, otherwise the out-parameter is
returned. -/
def calc_age (dll : SindexDll) (curve_idx : Int) (site_index height
    yrs_to_breast_height : ℚ) (use_bh : Int) : PyF :=
  let r := dll.htSIToAge (toShort curve_idx) height (toShort use_bh)
    site_index yrs_to_breast_height
  if r.1 < 0 then .negInf else .num r.2

/-- Embedded from `calc_height` (`Sindex_AgeSIToHt`). -/
def calc_height (dll : SindexDll) (curve_idx : Int) (site_index age
    yrs_to_breast_height : ℚ) (use_bh : Int) : PyF :=
  let r := dll.ageSIToHt (toShort curve_idx) age (toShort use_bh) site_index
    yrs_to_breast_height
  if r.1 < 0 then .negInf else .num r.2

/-- Embedded from `calc_y2bh` (`Sindex_Y2BH`). -/
def calc_y2bh (dll : SindexDll) (curve_idx : Int) (site_index : ℚ) : PyF :=
  let r := dll.y2bh (toShort curve_idx) site_index
  if r.1 < 0 then .negInf else .num r.2

/-- Embedded from `calc_convert_site` (`Sindex_SIToSI`). -/
def calc_convert_site (dll : SindexDll) (spec_idx : Int) (site_index : ℚ)
    (target_spec_idx : Int) : PyF :=
  let r := dll.siToSI (toShort spec_idx) site_index (toShort target_spec_idx)
  if r.1 < 0 then .negInf else .num r.2

/-- Embedded from `calc_site_class_to_site_index` (`Sindex_SCToSI`); the
site class and FIZ arguments are marshaled by `c_char`, which accepts
only integers in `[0, 255]` and raises `TypeError` otherwise — the raise
(abnormal termination before the native call) is modelled as `none`. -/
def calc_site_class_to_site_index (dll : SindexDll) (species_idx site_class
    fiz : Int) : Option PyF :=
  if 0 ≤ site_class ∧ site_class ≤ 255 ∧ 0 ≤ fiz ∧ fiz ≤ 255 then
    let r := dll.scToSI (toShort species_idx) site_class fiz
    some (if r.1 < 0 then .negInf else .num r.2)
  else none

/-- Modelled from the spec: a Species record of the Species Registry (§3):
short code, display name, default curve, default GI curve, and default
curve per regeneration type (natural/planted). -/
structure SpeciesRec where
  code : String
  name : String
  defCurve : Nat
  defGICurve : Nat
  defCurveNatural : Nat
  defCurvePlanted : Nat
  deriving DecidableEq, Repr

/-- Modelled from the spec: a Curve record (§3): owning species index,
metadata strings, whether its coefficient set is defined, and the positive
shape coefficient of the modelled equation family. -/
structure CurveRec where
  species : Nat
  name : String
  source : String
  notes : String
  hasCoeffs : Bool
  c : ℚ
  deriving DecidableEq, Repr

/-- Modelled from the spec: the static tables loaded once at startup (§3,
§5): the ordered species and curve registries, the site-class table keyed
by (species, site class, FIZ zone) (§4.5), and the species-to-species
conversion factor/offset table keyed by the ordered species pair (§4.6). -/
structure SindexModel where
  species : List SpeciesRec
  curves : List CurveRec
  siteClassTable : List ((Nat × Int × Int) × ℚ)
  convTable : List ((Nat × Nat) × (ℚ × ℚ))
  deriving Repr

/-- Modelled from the spec: registry lookup of a species by its integer
index (§4.1); indices outside the loaded table have no entry. -/
def speciesAt (m : SindexModel) (idx : Int) : Option SpeciesRec :=
  if idx < 0 then none else m.species[idx.toNat]?

/-- Modelled from the spec: registry lookup of a curve by its globally
unique integer index (§4.2). -/
def curveAt (m : SindexModel) (idx : Int) : Option CurveRec :=
  if idx < 0 then none else m.curves[idx.toNat]?

/-- Modelled from the spec: `firstSpecies` (§4.1) — the first index of the
load order, or a failure when the table is empty. -/
def firstSpecies (m : SindexModel) : Except SindexError Int :=
  if m.species.isEmpty then .error .NoAnswer else .ok 0

/-- Modelled from the spec: `nextSpecies` (§4.1) — the successor in load
order, `EndOfSequence` past the last entry, `UnknownSpecies` for an index
outside the loaded table. -/
def nextSpecies (m : SindexModel) (idx : Int) : Except SindexError Int :=
  match speciesAt m idx with
  | none => .error .UnknownSpecies
  | some _ =>
    if idx + 1 < (m.species.length : Int) then .ok (idx + 1)
    else .error .EndOfSequence

/-- Modelled from the spec: `codeOf` (§4.1), failing `UnknownSpecies` when
the index is out of the loaded table. -/
def specCode (m : SindexModel) (idx : Int) : Except SindexError String :=
  match speciesAt m idx with
  | none => .error .UnknownSpecies
  | some s => .ok s.code

/-- Modelled from the spec: `nameOf` (§4.1). -/
def specName (m : SindexModel) (idx : Int) : Except SindexError String :=
  match speciesAt m idx with
  | none => .error .UnknownSpecies
  | some s => .ok s.name

/-- Modelled from the spec: `defaultCurve` (§4.1). -/
def defCurve (m : SindexModel) (idx : Int) : Except SindexError Int :=
  match speciesAt m idx with
  | none => .error .UnknownSpecies
  | some s => .ok (s.defCurve : Int)

/-- Modelled from the spec: `defaultCurveForRegen` (§4.1), failing
`InvalidEstablishmentType` for a regeneration type outside the
enumeration {NATURAL, PLANTED}. -/
def defCurveEst (m : SindexModel) (idx regen : Int) : Except SindexError Int :=
  match speciesAt m idx with
  | none => .error .UnknownSpecies
  | some s =>
    if regen = 0 then .ok (s.defCurveNatural : Int)
    else if regen = 1 then .ok (s.defCurvePlanted : Int)
    else .error .InvalidEstablishmentType

/-- Modelled from the spec: `defaultGICurve` (§4.1). -/
def defGICurve (m : SindexModel) (idx : Int) : Except SindexError Int :=
  match speciesAt m idx with
  | none => .error .UnknownSpecies
  | some s => .ok (s.defGICurve : Int)

/-- Modelled from the spec: the ascending list of curve indices owned by a
species, in registration order (§4.2). -/
def ownedCurves (m : SindexModel) (sp : Nat) : List Nat :=
  (List.range m.curves.length).filter
    (fun j => (m.curves[j]?).map (·.species) = some sp)

/-- Modelled from the spec: `firstCurve` (§4.2) — the first curve owned by
the species, or a no-answer failure when it owns none. -/
def firstCurve (m : SindexModel) (sp : Int) : Except SindexError Int :=
  match speciesAt m sp with
  | none => .error .UnknownSpecies
  | some _ =>
    match ownedCurves m sp.toNat with
    | [] => .error .NoAnswer
    | j :: _ => .ok (j : Int)

/-- Modelled from the spec: `nextCurve` (§4.2) — the next curve owned by
the given species in registration order, `EndOfSequence` past the last,
`UnknownSpecies`/`UnknownCurve` for invalid indices. -/
def nextCurve (m : SindexModel) (sp cv : Int) : Except SindexError Int :=
  match speciesAt m sp with
  | none => .error .UnknownSpecies
  | some _ =>
    match curveAt m cv with
    | none => .error .UnknownCurve
    | some _ =>
      match (ownedCurves m sp.toNat).find? (fun j => cv < (j : Int)) with
      | some j => .ok (j : Int)
      | none => .error .EndOfSequence

/-- Modelled from the spec: the curve name accessor (§4.2), failing
`UnknownCurve` on an invalid index. -/
def curveName (m : SindexModel) (idx : Int) : Except SindexError String :=
  match curveAt m idx with
  | none => .error .UnknownCurve
  | some cv => .ok cv.name

/-- Modelled from the spec: the curve source accessor (§4.2). -/
def curveSource (m : SindexModel) (idx : Int) : Except SindexError String :=
  match curveAt m idx with
  | none => .error .UnknownCurve
  | some cv => .ok cv.source

/-- Modelled from the spec: the curve notes accessor (§4.2). -/
def curveNotes (m : SindexModel) (idx : Int) : Except SindexError String :=
  match curveAt m idx with
  | none => .error .UnknownCurve
  | some cv => .ok cv.notes

/-- Modelled from the spec: the forward curve model `heightAtAge` (§4.3):
height `1.3 + (si − 1.3)·A/(A + c)` at effective age `A`, where `A` is the
supplied age converted to the total-age base by adding the supplied years
to breast height when the age type is BREAST (§4.4).  Fails
`UnknownAgeType` for an age type outside the enumeration, `NoAnswer` when
the curve's coefficient set is undefined, `SiteIndexTooSmall` for
si ≤ 1.3 (§3: values ≤ 1.3 are invalid inputs for curve evaluation), and
`NoAnswer` for a negative effective age (§4.3: undefined for age < 0). -/
def heightAtAge (cv : CurveRec) (age : ℚ) (ageType : Int) (si y2b : ℚ) :
    Except SindexError ℚ :=
  if ageType ≠ 0 ∧ ageType ≠ 1 then .error .UnknownAgeType
  else if cv.hasCoeffs = false then .error .NoAnswer
  else if si ≤ 13/10 then .error .SiteIndexTooSmall
  else
    let tage := if ageType = 1 then age + y2b else age
    if tage < 0 then .error .NoAnswer
    else .ok (13/10 + (si - 13/10) * (tage / (tage + cv.c)))

/-- Modelled from the spec: the model-level years-to-breast-height formula
(§4.3): fails `SiteIndexTooSmall` for si ≤ 1.3, `NoAnswer` when the
curve's coefficient set is undefined, and otherwise returns the curve-fit
value `c + 100/(si − 1.3)` (a positive, site-index-decreasing fit). -/
def y2bhModel (cv : CurveRec) (si : ℚ) : Except SindexError ℚ :=
  if si ≤ 13/10 then .error .SiteIndexTooSmall
  else if cv.hasCoeffs then .ok (cv.c + 100 / (si - 13/10))
  else .error .NoAnswer

/-- Modelled from the spec: the engine's `yearsToBreastHeight` (§4.4):
resolve the curve via the registry (lookup failures short-circuit before
any numeric work, §7), then delegate to the model-level formula. -/
def yearsToBreastHeight (m : SindexModel) (cvIdx : Int) (si : ℚ) :
    Except SindexError ℚ :=
  match curveAt m cvIdx with
  | none => .error .UnknownCurve
  | some cv => y2bhModel cv si

/-- Modelled from the spec: the engine's `heightFromAgeSiteIndex` (§4.4):
resolve the curve, then delegate to `heightAtAge`. -/
def heightFromAgeSiteIndex (m : SindexModel) (cvIdx : Int) (si age y2b : ℚ)
    (ageType : Int) : Except SindexError ℚ :=
  match curveAt m cvIdx with
  | none => .error .UnknownCurve
  | some cv => heightAtAge cv age ageType si y2b

/-- Modelled from the spec: the engine's `ageFromHeightSiteIndex` (§4.3,
§4.4): resolve the curve, validate the age type, coefficient set and site
index, then invert the forward family in closed form over age
(`A = c·r/(1 − r)` with `r = (h − 1.3)/(si − 1.3)`); heights outside the
curve's reachable range (below breast height, or at or above the
site-index asymptote) yield `NoAnswer`, and a BREAST-based result
subtracts the supplied years to breast height (§4.4 reconciliation). -/
def ageFromHeightSiteIndex (m : SindexModel) (cvIdx : Int) (height : ℚ)
    (ageType : Int) (si y2b : ℚ) : Except SindexError ℚ :=
  match curveAt m cvIdx with
  | none => .error .UnknownCurve
  | some cv =>
    if ageType ≠ 0 ∧ ageType ≠ 1 then .error .UnknownAgeType
    else if cv.hasCoeffs = false then .error .NoAnswer
    else if si ≤ 13/10 then .error .SiteIndexTooSmall
    else if height < 13/10 ∨ si ≤ height then .error .NoAnswer
    else
      let r := (height - 13/10) / (si - 13/10)
      let tage := cv.c * r / (1 - r)
      .ok (if ageType = 1 then tage - y2b else tage)

/-- Modelled from the spec: the hard iteration cap of the ITERATE
root-find (§5). -/
def iterCap : Nat := 100

/-- Modelled from the spec: bisection root-find of the ITERATE estimation
mode (§4.3): narrow the site-index bracket until the forward height error
is below the tolerance `1/10000`, failing `NoConvergence` once the
iteration budget is exhausted.  Also returns the number of bisection
steps performed, for the resource-bound statement. -/
def bisectSI (f : ℚ → ℚ) (target : ℚ) :
    Nat → ℚ → ℚ → Except SindexError ℚ × Nat
  | 0, _, _ => (.error .NoConvergence, 0)
  | n + 1, lo, hi =>
    let mid := (lo + hi) / 2
    if |f mid - target| < 1/10000 then (.ok mid, 1)
    else if f mid < target then
      let r := bisectSI f target n mid hi
      (r.1, r.2 + 1)
    else
      let r := bisectSI f target n lo mid
      (r.1, r.2 + 1)

/-- Modelled from the spec: the ITERATE path of `siteIndexFromHeightAge`
(§4.3, §4.4): resolve species → default curve, validate the age type,
coefficients and age, then numerically invert the forward model over site
index on the bracket (1.3, 1000] with at most `iterCap` bisection steps;
an implied site index ≤ 1.3 fails `SiteIndexTooSmall`.  The second
component is the number of bisection steps performed. -/
def siteIndexIterate (m : SindexModel) (sp : Int) (height age : ℚ)
    (ageType : Int) : Except SindexError ℚ × Nat :=
  match speciesAt m sp with
  | none => (.error .UnknownSpecies, 0)
  | some s =>
    match curveAt m (s.defCurve : Int) with
    | none => (.error .UnknownCurve, 0)
    | some cv =>
      if ageType ≠ 0 ∧ ageType ≠ 1 then (.error .UnknownAgeType, 0)
      else if cv.hasCoeffs = false then (.error .NoAnswer, 0)
      else if age ≤ 0 then (.error .NoAnswer, 0)
      else
        let r := bisectSI (fun si => 13/10 + (si - 13/10) * (age / (age + cv.c)))
          height iterCap (13/10) 1000
        match r.1 with
        | .ok si => if si ≤ 13/10 then (.error .SiteIndexTooSmall, r.2) else (.ok si, r.2)
        | .error e => (.error e, r.2)

/-- Modelled from the spec: the DIRECT path of `siteIndexFromHeightAge`
(§4.3): the closed-form inverse `si = 1.3 + (h − 1.3)·(age + c)/age` of
the modelled equation family; an implied site index ≤ 1.3 fails
`SiteIndexTooSmall`. -/
def siteIndexDirect (m : SindexModel) (sp : Int) (height age : ℚ)
    (ageType : Int) : Except SindexError ℚ :=
  match speciesAt m sp with
  | none => .error .UnknownSpecies
  | some s =>
    match curveAt m (s.defCurve : Int) with
    | none => .error .UnknownCurve
    | some cv =>
      if ageType ≠ 0 ∧ ageType ≠ 1 then .error .UnknownAgeType
      else if cv.hasCoeffs = false then .error .NoAnswer
      else if age ≤ 0 then .error .NoAnswer
      else
        let si := 13/10 + (height - 13/10) * ((age + cv.c) / age)
        if si ≤ 13/10 then .error .SiteIndexTooSmall else .ok si

/-- Modelled from the spec: the engine's `siteIndexFromHeightAge` (§4.4):
dispatch on the estimation method (1 = DIRECT, otherwise ITERATE). -/
def siteIndexFromHeightAge (m : SindexModel) (sp : Int) (height age : ℚ)
    (ageType est : Int) : Except SindexError ℚ :=
  if est = 1 then siteIndexDirect m sp height age ageType
  else (siteIndexIterate m sp height age ageType).1

/-- Modelled from the spec: the Site-Class Converter (§4.5): pure table
lookup keyed by (species, class, zone); fails `UnknownSiteClass` or
`UnknownFizZone` for values outside the enumerations, `UnknownSpecies`
for an index absent from the table, `NoAnswer` when the species has no
entry for that (class, zone) pair. -/
def siteClassToSI (m : SindexModel) (sp cls fiz : Int) :
    Except SindexError ℚ :=
  if cls < 0 ∨ 4 < cls then .error .UnknownSiteClass
  else if fiz ≠ 0 ∧ fiz ≠ 1 then .error .UnknownFizZone
  else
    match speciesAt m sp with
    | none => .error .UnknownSpecies
    | some _ =>
      match m.siteClassTable.lookup (sp.toNat, cls, fiz) with
      | some v => .ok v
      | none => .error .NoAnswer

/-- Modelled from the spec: the Species-to-Species Site Converter (§4.6):
identity when source = target, otherwise an affine conversion looked up by
the ordered species pair; fails `UnknownSpecies` for invalid indices and
`NoConversionDefined` when the pair has no entry. -/
def convertSiteIndex (m : SindexModel) (sp : Int) (si : ℚ) (tgt : Int) :
    Except SindexError ℚ :=
  match speciesAt m sp, speciesAt m tgt with
  | none, _ => .error .UnknownSpecies
  | some _, none => .error .UnknownSpecies
  | some _, some _ =>
    if sp = tgt then .ok si
    else
      match m.convTable.lookup (sp.toNat, tgt.toNat) with
      | some fo => .ok (fo.1 * si + fo.2)
      | none => .error .NoConversionDefined

/-- Modelled from the spec and the wrapper's error table: marshaling of
error kinds to the native library's negative status codes.
`EndOfSequence`, `NoConvergence` and `NoDirectInverse` share the
"no answer" code `-4`, exactly as the original scheme reuses `-4` for
"last defined". -/
def errCode : SindexError → Int
  | .SiteIndexTooSmall => -1
  | .NoAnswer => -4
  | .UnknownCurve => -5
  | .UnknownSiteClass => -6
  | .UnknownFizZone => -7
  | .UnknownSpecies => -8
  | .NoConversionDefined => -10
  | .UnknownAgeType => -11
  | .InvalidEstablishmentType => -12
  | .NoDirectInverse => -4
  | .NoConvergence => -4
  | .EndOfSequence => -4

/-- Marshaling of an index-valued engine result into the library's
status-or-index convention. -/
def statusOf : Except SindexError Int → Int
  | .ok v => v
  | .error e => errCode e

/-- Marshaling of a numeric engine result into the library's
(status, out-parameter) convention. -/
def exceptToStatus : Except SindexError ℚ → Int × ℚ
  | .ok v => (0, v)
  | .error e => (errCode e, 0)

/-- Marshaling of a string-valued engine result into a C string: the
string call has no status channel, so a lookup failure yields the empty
string. -/
def stringOf : Except SindexError String → String
  | .ok s => s
  | .error _ => ""

/-- Modelled from the spec: the native library induced by a loaded model —
each entry point runs the corresponding engine operation and marshals its
result into the library's status-code convention.  Argument order follows
the C prototypes (e.g. `Sindex_HtAgeToSI(species, age, use_bh, height,
estimate, &site)`). -/
def specDll (m : SindexModel) : SindexDll where
  firstSpecies := statusOf (firstSpecies m)
  nextSpecies := fun i => statusOf (nextSpecies m i)
  specCode := fun i => stringOf (specCode m i)
  specName := fun i => stringOf (specName m i)
  defCurve := fun i => statusOf (defCurve m i)
  defCurveEst := fun i r => statusOf (defCurveEst m i r)
  defGICurve := fun i => statusOf (defGICurve m i)
  firstCurve := fun i => statusOf (firstCurve m i)
  nextCurve := fun i j => statusOf (nextCurve m i j)
  curveName := fun i => stringOf (curveName m i)
  curveSource := fun i => stringOf (curveSource m i)
  curveNotes := fun i => stringOf (curveNotes m i)
  htAgeToSI := fun sp age t ht est =>
    exceptToStatus (siteIndexFromHeightAge m sp ht age t est)
  htSIToAge := fun cv ht t si y2b =>
    exceptToStatus (ageFromHeightSiteIndex m cv ht t si y2b)
  ageSIToHt := fun cv age t si y2b =>
    exceptToStatus (heightFromAgeSiteIndex m cv si age y2b t)
  y2bh := fun cv si => exceptToStatus (yearsToBreastHeight m cv si)
  siToSI := fun sp si tgt => exceptToStatus (convertSiteIndex m sp si tgt)
  scToSI := fun sp cls fiz => exceptToStatus (siteClassToSI m sp cls fiz)

/-- Modelled from the spec: a small loaded table instance used for
concrete evaluation: three species, four curves (the last with an
undefined coefficient set), one site-class entry and one
species-to-species conversion entry. -/
def demoModel : SindexModel where
  species :=
    [⟨"AC", "Poplar", 0, 1, 0, 1⟩,
     ⟨"AT", "Aspen", 2, 2, 2, 2⟩,
     ⟨"BA", "Amabilis fir", 3, 3, 3, 3⟩]
  curves :=
    [⟨0, "AC curve A", "Citation A", "", true, 8⟩,
     ⟨0, "AC curve B", "Citation B", "", true, 10⟩,
     ⟨1, "AT curve", "Citation C", "", true, 12⟩,
     ⟨2, "BA curve", "Citation D", "undefined coefficients", false, 9⟩]
  siteClassTable := [((0, 3, 0), 18)]
  convTable := [((0, 1), (17/20, 2))]

/-- Modelled from the spec: the list of indices visited after a start
index by repeatedly calling `nextSpecies`, with explicit fuel (§8). -/
def traverseFrom (m : SindexModel) : Nat → Int → List Int
  | 0, _ => []
  | fuel + 1, idx =>
    match nextSpecies m idx with
    | .ok j => j :: traverseFrom m fuel j
    | .error _ => []

/-- Modelled from the spec: the full species traversal (§8):
`firstSpecies`, then repeated `nextSpecies` until the terminator; the
species count bounds the number of steps. -/
def speciesTraversal (m : SindexModel) : List Int :=
  match firstSpecies m with
  | .ok i => i :: traverseFrom m m.species.length i
  | .error _ => []

/-- The error-code/message mapping exactly as the claim about
`get_sindex_err_msg` states it (each code −1…−12 to its fixed message,
every other integer to "unknown issue"), to be compared with the embedded
dictionary lookup. -/
def claimed_err_msg (c : Int) : String :=
  if c = -1 then "site index <= 1.3"
  else if c = -2 then "bhage < 0.5 (for GI)"
  else if c = -3 then "bhage > GI range"
  else if c = -4 then "no answer was generated"
  else if c = -5 then "input curve is not a valid curve index"
  else if c = -6 then "site class is unknown"
  else if c = -7 then "FIZ code is unknown"
  else if c = -8 then "species code is unknown"
  else if c = -9 then "total age and GI curve"
  else if c = -10 then "source species index is not valid, or no conversion"
  else if c = -11 then "unknown age type"
  else if c = -12 then "input parameter is not a valid establishment type"
  else "unknown issue"

/-- The wrapper's sentinel pattern for plain index-returning calls: the
returned value is either the library's value (then nonnegative) or
exactly `-1`. -/
lemma sentinel_int (r : Int) :
    ((if r < 0 then -1 else r) = r ∧ 0 ≤ r) ∨ (if r < 0 then -1 else r) = -1 := by
  split_ifs with h
  · right; rfl
  · left; exact ⟨rfl, by omega⟩

/-- The wrapper's sentinel pattern for the `next`-style calls (`-4` is
checked first, then every other negative status): the returned value is
the library's nonnegative value or exactly `-1`, and it is `-1` precisely
when the underlying status is negative. -/
lemma sentinel_next (r : Int) :
    (((if r = -4 then -1 else if r < 0 then -1 else r) = r ∧ 0 ≤ r) ∨
      (if r = -4 then -1 else if r < 0 then -1 else r) = -1) ∧
    ((if r = -4 then -1 else if r < 0 then -1 else r) = -1 ↔ r < 0) := by
  split_ifs with h h2 <;>
    refine ⟨?_, ?_⟩ <;>
      first
        | (right; rfl)
        | (left; exact ⟨rfl, by omega⟩)
        | (constructor <;> intro <;> omega)

/-- The wrapper's sentinel pattern for float-returning calls: the result
is the sentinel `-inf` precisely when the status is negative, else the
library's out-parameter. -/
lemma sentinel_pyf (r : Int × ℚ) :
    ((if r.1 < 0 then PyF.negInf else PyF.num r.2) = .negInf ∧ r.1 < 0) ∨
      ((if r.1 < 0 then PyF.negInf else PyF.num r.2) = .num r.2 ∧ 0 ≤ r.1) := by
  split_ifs with h
  · left; exact ⟨rfl, h⟩
  · right; exact ⟨rfl, by omega⟩

/-- 16-bit truncation is 65536-periodic, so `c_short`-marshaled indices
that differ by 65536 are indistinguishable to the native library. -/
lemma toShort_period (i : Int) : toShort (i + 65536) = toShort i := by
  unfold toShort; omega

/-- A species index inside the loaded table resolves to an entry. -/
lemma speciesAt_isSome (m : SindexModel) (i : Nat) (h : i < m.species.length) :
    ∃ s, speciesAt m (i : Int) = some s := by
  unfold speciesAt
  rw [if_neg (by omega : ¬ (i : Int) < 0)]
  simp only [Int.toNat_natCast]
  exact ⟨m.species[i], List.getElem?_eq_getElem h⟩

/-- `nextSpecies` steps from an in-table index to its successor when one
exists. -/
lemma nextSpecies_ok (m : SindexModel) (i : Nat) (hi : i < m.species.length)
    (hlt : i + 1 < m.species.length) :
    nextSpecies m (i : Int) = .ok (((i + 1 : Nat)) : Int) := by
  obtain ⟨s, hs⟩ := speciesAt_isSome m i hi
  unfold nextSpecies
  rw [hs]
  rw [if_pos (by omega : (i : Int) + 1 < (m.species.length : Int))]
  norm_num

/-- `nextSpecies` signals the terminator at the last in-table index. -/
lemma nextSpecies_last (m : SindexModel) (i : Nat) (hi : i < m.species.length)
    (hlast : ¬ i + 1 < m.species.length) :
    nextSpecies m (i : Int) = .error .EndOfSequence := by
  obtain ⟨s, hs⟩ := speciesAt_isSome m i hi
  unfold nextSpecies
  rw [hs]
  rw [if_neg (by omega : ¬ (i : Int) + 1 < (m.species.length : Int))]

/-- The fueled continuation of the traversal from an in-table index is the
ascending run of the remaining indices. -/
lemma traverseFrom_eq_range' (m : SindexModel) :
    ∀ (fuel i : Nat), i < m.species.length →
      m.species.length - 1 - i ≤ fuel →
      traverseFrom m fuel (i : Int) =
        (List.range' (i + 1) (m.species.length - 1 - i)).map
          (fun k : Nat => (k : Int)) := by
  intro fuel
  induction fuel with
  | zero =>
    intro i hi hf
    have h0 : m.species.length - 1 - i = 0 := by omega
    rw [h0]
    rfl
  | succ fuel ih =>
    intro i hi hf
    by_cases hlt : i + 1 < m.species.length
    · have hnext := nextSpecies_ok m i hi hlt
      have hrec := ih (i + 1) hlt (by omega)
      simp only [traverseFrom, hnext, hrec]
      have hn : m.species.length - 1 - i =
          (m.species.length - 1 - (i + 1)) + 1 := by omega
      rw [hn, List.range'_succ]
      simp
    · have hnext := nextSpecies_last m i hi hlt
      simp only [traverseFrom, hnext]
      have h0 : m.species.length - 1 - i = 0 := by omega
      rw [h0]
      rfl

/-- The step count of the bisection never exceeds its fuel. -/
lemma bisect_count_le (f : ℚ → ℚ) (t : ℚ) :
    ∀ (fuel : Nat) (lo hi : ℚ), (bisectSI f t fuel lo hi).2 ≤ fuel := by
  intro fuel
  induction fuel with
  | zero => intro lo hi; simp [bisectSI]
  | succ n ih =>
    intro lo hi
    simp only [bisectSI]
    split_ifs with h1 h2
    · simp
    · simpa using Nat.succ_le_succ (ih _ _)
    · simpa using Nat.succ_le_succ (ih _ _)

/-- The bisection either converges to a value or fails with exactly
`NoConvergence`. -/
lemma bisect_shape (f : ℚ → ℚ) (t : ℚ) :
    ∀ (fuel : Nat) (lo hi : ℚ),
      (∃ v, (bisectSI f t fuel lo hi).1 = .ok v) ∨
        (bisectSI f t fuel lo hi).1 = .error .NoConvergence := by
  intro fuel
  induction fuel with
  | zero => intro lo hi; right; rfl
  | succ n ih =>
    intro lo hi
    simp only [bisectSI]
    split_ifs with h1 h2
    · left; exact ⟨_, rfl⟩
    · simpa using ih _ _
    · simpa using ih _ _

/-- The ITERATE path performs at most `iterCap` bisection steps and its
outcome is a value or one of the closed error kinds. -/
lemma siteIndexIterate_spec (m : SindexModel) (sp : Int) (h a : ℚ) (t : Int) :
    (siteIndexIterate m sp h a t).2 ≤ iterCap ∧
    ((∃ v, (siteIndexIterate m sp h a t).1 = .ok v) ∨
      (siteIndexIterate m sp h a t).1 = .error .NoConvergence ∨
      (siteIndexIterate m sp h a t).1 = .error .UnknownSpecies ∨
      (siteIndexIterate m sp h a t).1 = .error .UnknownCurve ∨
      (siteIndexIterate m sp h a t).1 = .error .UnknownAgeType ∨
      (siteIndexIterate m sp h a t).1 = .error .NoAnswer ∨
      (siteIndexIterate m sp h a t).1 = .error .SiteIndexTooSmall) := by
  unfold siteIndexIterate
  cases hsp : speciesAt m sp with
  | none => exact ⟨by simp [hsp, iterCap], by simp [hsp]⟩
  | some s =>
    cases hcv : curveAt m (s.defCurve : Int) with
    | none => exact ⟨by simp [hsp, hcv, iterCap], by simp [hsp, hcv]⟩
    | some cv =>
      simp only [hsp, hcv]
      split_ifs with h1 h2 h3
      · exact ⟨by simp [iterCap], by simp⟩
      · exact ⟨by simp [iterCap], by simp⟩
      · exact ⟨by simp [iterCap], by simp⟩
      · rcases bisect_shape (fun si => 13/10 + (si - 13/10) * (a / (a + cv.c)))
          h iterCap (13/10) 1000 with ⟨v, hv⟩ | hv
        · simp only [hv]
          split_ifs with h4
          · exact ⟨bisect_count_le _ _ _ _ _, by simp⟩
          · exact ⟨bisect_count_le _ _ _ _ _, by simp⟩
        · simp only [hv]
          exact ⟨bisect_count_le _ _ _ _ _, by simp⟩

/-- C1 counterexample: the claim says every failing call returns a tagged
error kind, never a numeric value.  In the code, two distinct failures of
`calc_site` (unknown species, status −8; unknown age type, status −11)
both return the same untagged numeric sentinel `float('-inf')`; likewise
the unregistered site-class triple (species 1, MEDIUM, COAST), for which
the engine reports `NoAnswer`, comes back as the float `-inf` (the call
completes normally, its `c_char` arguments being in range). -/
theorem calc_site_untagged_error_cex :
    siteIndexFromHeightAge demoModel 999 10 50 0 1 = .error .UnknownSpecies ∧
    siteIndexFromHeightAge demoModel 0 10 50 7 1 = .error .UnknownAgeType ∧
    calc_site (specDll demoModel) 999 10 50 0 1 = .negInf ∧
    calc_site (specDll demoModel) 0 10 50 7 1 = .negInf ∧
    siteClassToSI demoModel 1 3 0 = .error .NoAnswer ∧
    calc_site_class_to_site_index (specDll demoModel) 1 3 0 = some .negInf := by
  decide

/-- C1 (amended): every call of a float-returning wrapper operation
(`calc_site`, `calc_age`, `calc_height`, `calc_y2bh`,
`calc_convert_site`, `calc_site_class_to_site_index`) returns either the
library's numeric value (exactly when the underlying status is
nonnegative) or the single numeric sentinel `-inf` (exactly when the
status is negative); all error kinds collapse to that one sentinel, so a
failure is distinguishable from a result but carries no error kind.  For
`calc_site_class_to_site_index` the `c_char` marshaling additionally
raises (modelled `none`) exactly when a site-class or FIZ argument lies
outside `[0, 255]`; within that range the same sentinel pattern holds. -/
theorem numeric_wrappers_single_sentinel (dll : SindexDll)
    (sp cv tgt t est cls fiz : Int) (h a si y2b : ℚ) :
    ((calc_site dll sp h a t est = .negInf ∧
        (dll.htAgeToSI (toShort sp) a (toShort t) h (toShort est)).1 < 0) ∨
      (calc_site dll sp h a t est =
          .num (dll.htAgeToSI (toShort sp) a (toShort t) h (toShort est)).2 ∧
        0 ≤ (dll.htAgeToSI (toShort sp) a (toShort t) h (toShort est)).1)) ∧
    ((calc_age dll cv si h y2b t = .negInf ∧
        (dll.htSIToAge (toShort cv) h (toShort t) si y2b).1 < 0) ∨
      (calc_age dll cv si h y2b t =
          .num (dll.htSIToAge (toShort cv) h (toShort t) si y2b).2 ∧
        0 ≤ (dll.htSIToAge (toShort cv) h (toShort t) si y2b).1)) ∧
    ((calc_height dll cv si a y2b t = .negInf ∧
        (dll.ageSIToHt (toShort cv) a (toShort t) si y2b).1 < 0) ∨
      (calc_height dll cv si a y2b t =
          .num (dll.ageSIToHt (toShort cv) a (toShort t) si y2b).2 ∧
        0 ≤ (dll.ageSIToHt (toShort cv) a (toShort t) si y2b).1)) ∧
    ((calc_y2bh dll cv si = .negInf ∧ (dll.y2bh (toShort cv) si).1 < 0) ∨
      (calc_y2bh dll cv si = .num (dll.y2bh (toShort cv) si).2 ∧
        0 ≤ (dll.y2bh (toShort cv) si).1)) ∧
    ((calc_convert_site dll sp si tgt = .negInf ∧
        (dll.siToSI (toShort sp) si (toShort tgt)).1 < 0) ∨
      (calc_convert_site dll sp si tgt =
          .num (dll.siToSI (toShort sp) si (toShort tgt)).2 ∧
        0 ≤ (dll.siToSI (toShort sp) si (toShort tgt)).1)) ∧
    ((calc_site_class_to_site_index dll sp cls fiz = none ∧
        (cls < 0 ∨ 255 < cls ∨ fiz < 0 ∨ 255 < fiz)) ∨
      (calc_site_class_to_site_index dll sp cls fiz = some .negInf ∧
        (dll.scToSI (toShort sp) cls fiz).1 < 0) ∨
      (calc_site_class_to_site_index dll sp cls fiz =
          some (.num (dll.scToSI (toShort sp) cls fiz).2) ∧
        0 ≤ (dll.scToSI (toShort sp) cls fiz).1)) := by
  refine ⟨sentinel_pyf _, sentinel_pyf _, sentinel_pyf _, sentinel_pyf _,
    sentinel_pyf _, ?_⟩
  unfold calc_site_class_to_site_index
  split_ifs with hr
  · rcases sentinel_pyf (dll.scToSI (toShort sp) cls fiz) with ⟨he, hs⟩ | ⟨he, hs⟩
    · exact Or.inr (Or.inl ⟨congrArg some he, hs⟩)
    · exact Or.inr (Or.inr ⟨congrArg some he, hs⟩)
  · exact Or.inl ⟨rfl, by omega⟩

/-- C2 counterexample: the claim says end-of-sequence is never collapsed
into the same returned value as a true error.  In the code, at the last
species (index 2 of the 3-entry table) the native status is −4
(end-of-sequence) and at the invalid index 999 it is −8 (unknown
species), yet `get_next_species` returns the same `-1` for both; the same
collapse happens for `get_next_curve`. -/
theorem next_traversal_collapse_cex :
    nextSpecies demoModel 2 = .error .EndOfSequence ∧
    nextSpecies demoModel 999 = .error .UnknownSpecies ∧
    (specDll demoModel).nextSpecies 2 = -4 ∧
    (specDll demoModel).nextSpecies 999 = -8 ∧
    get_next_species (specDll demoModel) 2 = -1 ∧
    get_next_species (specDll demoModel) 999 = -1 ∧
    nextCurve demoModel 0 1 = .error .EndOfSequence ∧
    nextCurve demoModel 0 999 = .error .UnknownCurve ∧
    get_next_curve (specDll demoModel) 0 1 = -1 ∧
    get_next_curve (specDll demoModel) 0 999 = -1 := by
  decide

/-- C2 (amended): `get_next_species`/`get_next_curve` return `-1` exactly
when the underlying status is negative — end-of-sequence (−4) and every
true error alike — and pass nonnegative indices through unchanged; the
two outcomes are therefore not distinguishable in the returned value,
only at the native status level. -/
theorem next_wrappers_collapse_amended (dll : SindexDll) (sp idx cv : Int) :
    (get_next_species dll idx = -1 ↔ dll.nextSpecies (toShort idx) < 0) ∧
    (get_next_curve dll sp cv = -1 ↔
      dll.nextCurve (toShort sp) (toShort cv) < 0) ∧
    (get_next_species dll idx = -1 ∨
      get_next_species dll idx = dll.nextSpecies (toShort idx)) ∧
    (get_next_curve dll sp cv = -1 ∨
      get_next_curve dll sp cv = dll.nextCurve (toShort sp) (toShort cv)) :=
  ⟨(sentinel_next _).2, (sentinel_next _).2,
   ((sentinel_next _).1).elim (fun h => Or.inr h.1) Or.inl,
   ((sentinel_next _).1).elim (fun h => Or.inr h.1) Or.inl⟩

/-- C3 counterexample: the claim says the metadata accessors fail with
`UnknownSpecies`/`UnknownCurve` for out-of-table indices.  In the code
they have no error branch at all: at index 999 (outside the 3-species,
4-curve table) every accessor returns a plain string (the empty string),
and the out-of-table index 65536 is truncated by `c_short` marshaling to
0, returning species 0's code "AC" as if it were valid. -/
theorem metadata_accessor_no_error_cex :
    demoModel.species.length = 3 ∧ demoModel.curves.length = 4 ∧
    get_species_code (specDll demoModel) 999 = "" ∧
    get_species_name (specDll demoModel) 999 = "" ∧
    get_curve_name (specDll demoModel) 999 = "" ∧
    get_curve_source (specDll demoModel) 999 = "" ∧
    get_curve_notes (specDll demoModel) 999 = "" ∧
    get_species_code (specDll demoModel) 65536 = "AC" := by
  decide

/-- C3 (amended): the metadata accessors never fail and never terminate
abnormally on a modelled library: for every index they return the
stripped string the native library produces for the 16-bit-truncated
index, so no `UnknownSpecies`/`UnknownCurve` is observable and indices
congruent modulo 2^16 are indistinguishable. -/
theorem metadata_accessor_string_passthrough (dll : SindexDll) (idx : Int) :
    get_species_code dll idx = pyStrip (dll.specCode (toShort idx)) ∧
    get_species_code dll (idx + 65536) = get_species_code dll idx ∧
    get_species_name dll (idx + 65536) = get_species_name dll idx ∧
    get_curve_name dll (idx + 65536) = get_curve_name dll idx ∧
    get_curve_source dll (idx + 65536) = get_curve_source dll idx ∧
    get_curve_notes dll (idx + 65536) = get_curve_notes dll idx := by
  simp [get_species_code, get_species_name, get_curve_name, get_curve_source,
    get_curve_notes, toShort_period]

/-- C4 counterexample: the claim quantifies over every curve index, but
at the unregistered curve index 999 with site index 1 ≤ 1.3 the registry
lookup fails first (§4.4 resolves the curve before delegating, §7
short-circuits lookup failures before numeric work): the result is
`UnknownCurve`, not `SiteIndexTooSmall`. -/
theorem y2bh_unknown_curve_first_cex :
    yearsToBreastHeight demoModel 999 1 = .error .UnknownCurve ∧
    (Except.error .UnknownCurve : Except SindexError ℚ) ≠
      .error .SiteIndexTooSmall ∧
    (1 : ℚ) ≤ 13/10 :=
  ⟨by decide, by decide, by norm_num⟩

/-- C4 (amended): for every curve index registered in the loaded table,
`yearsToBreastHeight` fails with `SiteIndexTooSmall` for every site index
≤ 1.3, and succeeds at site index 20.0 whenever the curve's coefficient
set is defined; unregistered curve indices fail with `UnknownCurve`
before the numeric check. -/
theorem y2bh_site_index_bounds (m : SindexModel) (cvIdx : Int)
    (cv : CurveRec) (hcv : curveAt m cvIdx = some cv) (si : ℚ)
    (hsi : si ≤ 13/10) :
    yearsToBreastHeight m cvIdx si = .error .SiteIndexTooSmall ∧
    (cv.hasCoeffs = true → ∃ y, yearsToBreastHeight m cvIdx 20 = .ok y) := by
  constructor
  · simp only [yearsToBreastHeight, hcv]
    unfold y2bhModel
    rw [if_pos hsi]
  · intro hc
    refine ⟨cv.c + 100 / (20 - 13/10), ?_⟩
    simp only [yearsToBreastHeight, hcv]
    unfold y2bhModel
    rw [if_neg (by norm_num : ¬(20 : ℚ) ≤ 13/10), if_pos hc]

/-- C4 witness: curve 0 of the demo table at site index 1 fails with
`SiteIndexTooSmall`, and at site index 20 produces a year count. -/
theorem y2bh_site_index_bounds_witness :
    yearsToBreastHeight demoModel 0 1 = .error .SiteIndexTooSmall ∧
    ∃ y, yearsToBreastHeight demoModel 0 20 = .ok y := by
  have h := y2bh_site_index_bounds demoModel 0
    ⟨0, "AC curve A", "Citation A", "", true, 8⟩ rfl 1 (by norm_num)
  exact ⟨h.1, h.2 rfl⟩

/-- C5: for every species index registered in the loaded table and every
site-index value, the species-to-species site conversion with source =
target succeeds and returns the site index unchanged. -/
theorem convert_site_index_identity (m : SindexModel) (sp : Int)
    (s : SpeciesRec) (hs : speciesAt m sp = some s) (si : ℚ) :
    convertSiteIndex m sp si sp = .ok si := by
  unfold convertSiteIndex
  rw [hs]
  simp

/-- C5 witness: converting site index 25 from species 1 to species 1
returns 25. -/
theorem convert_site_index_identity_witness :
    convertSiteIndex demoModel 1 25 1 = .ok 25 :=
  convert_site_index_identity demoModel 1 ⟨"AT", "Aspen", 2, 2, 2, 2⟩
    (by decide) 25

/-- C6: the species traversal (`firstSpecies` then repeated
`nextSpecies`) is exactly the finite ascending sequence 0,…,n−1 of the
loaded table's indices — hence finite and strictly advancing — and the
successor query at its last index yields the `EndOfSequence` terminator.
The traversal is a pure function of the loaded model, and the first
conjunct pins it to one canonical list, so re-traversal yields the
identical sequence (determinism across runs). -/
theorem species_traversal_deterministic (m : SindexModel)
    (h0 : m.species ≠ []) :
    speciesTraversal m =
      (List.range m.species.length).map (fun k : Nat => (k : Int)) ∧
    List.Chain' (· < ·) (speciesTraversal m) ∧
    nextSpecies m ((m.species.length : Int) - 1) = .error .EndOfSequence := by
  have hn : 0 < m.species.length := List.length_pos.2 h0
  have hfirst : firstSpecies m = .ok 0 := by
    unfold firstSpecies
    rw [if_neg (by simpa [List.isEmpty_iff] using h0)]
  have htrav : speciesTraversal m =
      ((0 : Nat) : Int) ::
        (List.range' 1 (m.species.length - 1)).map (fun k : Nat => (k : Int)) := by
    simp only [speciesTraversal, hfirst]
    have h := traverseFrom_eq_range' m m.species.length 0 hn (by omega)
    simpa using h
  have heq : speciesTraversal m =
      (List.range m.species.length).map (fun k : Nat => (k : Int)) := by
    rw [htrav]
    obtain ⟨k, hk⟩ : ∃ k, m.species.length = k + 1 :=
      ⟨m.species.length - 1, by omega⟩
    rw [hk, List.range_eq_range', List.range'_succ]
    simp
  refine ⟨heq, ?_, ?_⟩
  · rw [heq]
    exact (((List.pairwise_lt_range m.species.length).map
      (fun k : Nat => (k : Int))
      (by intro a b hab; show (a : Int) < (b : Int); exact_mod_cast hab))).chain'
  · have hc : ((m.species.length - 1 : Nat) : Int) =
        (m.species.length : Int) - 1 := by omega
    rw [← hc]
    exact nextSpecies_last m (m.species.length - 1) (by omega) (by omega)

/-- C6 witness: on the demo table the traversal is [0, 1, 2] and the
successor of the last index is the terminator. -/
theorem species_traversal_deterministic_witness :
    speciesTraversal demoModel = [(0 : Int), 1, 2] ∧
    nextSpecies demoModel 2 = .error .EndOfSequence := by
  have h := species_traversal_deterministic demoModel (by decide)
  refine ⟨?_, ?_⟩
  · rw [h.1]; rfl
  · have h2 := h.2.2
    norm_num at h2
    exact h2

/-- C7: for a curve with a defined forward model (positive shape
coefficient), the forward height evaluation is monotonically
non-decreasing in age for fixed site index and years-to-breast-height:
whenever both evaluations succeed at ages a1 ≤ a2, the first height is at
most the second. -/
theorem height_at_age_monotone (cv : CurveRec) (hc : 0 < cv.c) (t : Int)
    (si y2b a1 a2 h1 h2 : ℚ) (hle : a1 ≤ a2)
    (e1 : heightAtAge cv a1 t si y2b = .ok h1)
    (e2 : heightAtAge cv a2 t si y2b = .ok h2) : h1 ≤ h2 := by
  simp only [heightAtAge] at e1 e2
  by_cases ht : t ≠ 0 ∧ t ≠ 1
  · rw [if_pos ht] at e1; cases e1
  rw [if_neg ht] at e1 e2
  by_cases hco : cv.hasCoeffs = false
  · rw [if_pos hco] at e1; cases e1
  rw [if_neg hco] at e1 e2
  by_cases hsi : si ≤ 13/10
  · rw [if_pos hsi] at e1; cases e1
  rw [if_neg hsi] at e1 e2
  set t1 := if t = 1 then a1 + y2b else a1 with ht1
  set t2 := if t = 1 then a2 + y2b else a2 with ht2
  by_cases hn1 : t1 < 0
  · rw [if_pos hn1] at e1; cases e1
  rw [if_neg hn1] at e1
  by_cases hn2 : t2 < 0
  · rw [if_pos hn2] at e2; cases e2
  rw [if_neg hn2] at e2
  have hv1 : h1 = 13/10 + (si - 13/10) * (t1 / (t1 + cv.c)) :=
    (Except.ok.inj e1).symm
  have hv2 : h2 = 13/10 + (si - 13/10) * (t2 / (t2 + cv.c)) :=
    (Except.ok.inj e2).symm
  have hle12 : t1 ≤ t2 := by
    rw [ht1, ht2]
    split_ifs with hcase
    · linarith
    · exact hle
  have h1nn : (0 : ℚ) ≤ t1 := by linarith
  have d1 : 0 < t1 + cv.c := by linarith
  have d2 : 0 < t2 + cv.c := by linarith
  have key : t1 / (t1 + cv.c) ≤ t2 / (t2 + cv.c) := by
    rw [div_le_div_iff₀ d1 d2]
    nlinarith [mul_le_mul_of_nonneg_right hle12 hc.le]
  have hpos : (0 : ℚ) < si - 13/10 := by linarith
  rw [hv1, hv2]
  nlinarith [mul_le_mul_of_nonneg_left key hpos.le]

/-- C7 witness: on curve 0 of the demo table at site index 20, the
heights at total ages 50 and 60 are 2526/145 and 89/5, and the theorem
yields 2526/145 ≤ 89/5. -/
theorem height_at_age_monotone_witness :
    (0 : ℚ) < (8 : ℚ) ∧ (50 : ℚ) ≤ 60 ∧
    heightAtAge ⟨0, "AC curve A", "Citation A", "", true, 8⟩ 50 0 20 0 =
      .ok (2526/145) ∧
    heightAtAge ⟨0, "AC curve A", "Citation A", "", true, 8⟩ 60 0 20 0 =
      .ok (89/5) ∧
    (2526/145 : ℚ) ≤ 89/5 :=
  ⟨by norm_num, by norm_num, by simp [heightAtAge]; norm_num,
    by simp [heightAtAge]; norm_num,
    height_at_age_monotone ⟨0, "AC curve A", "Citation A", "", true, 8⟩
      (by norm_num) 0 20 0 50 60 (2526/145) (89/5) (by norm_num)
      (by simp [heightAtAge]; norm_num) (by simp [heightAtAge]; norm_num)⟩

/-- C8: the ITERATE mode of `siteIndexFromHeightAge` is a hard-capped
terminating computation: for every input it performs at most `iterCap` =
100 bisection steps, the dispatcher's ITERATE branch is exactly the first
component of the counted run, and the outcome is either a converged value
or one of the closed error kinds — `NoConvergence` (never divergence)
when the iteration budget is exhausted. -/
theorem site_index_iterate_bounded (m : SindexModel) (sp : Int)
    (h a : ℚ) (t : Int) :
    (siteIndexIterate m sp h a t).2 ≤ iterCap ∧
    siteIndexFromHeightAge m sp h a t 0 = (siteIndexIterate m sp h a t).1 ∧
    ((∃ v, (siteIndexIterate m sp h a t).1 = .ok v) ∨
      (siteIndexIterate m sp h a t).1 = .error .NoConvergence ∨
      (siteIndexIterate m sp h a t).1 = .error .UnknownSpecies ∨
      (siteIndexIterate m sp h a t).1 = .error .UnknownCurve ∨
      (siteIndexIterate m sp h a t).1 = .error .UnknownAgeType ∨
      (siteIndexIterate m sp h a t).1 = .error .NoAnswer ∨
      (siteIndexIterate m sp h a t).1 = .error .SiteIndexTooSmall) :=
  ⟨(siteIndexIterate_spec m sp h a t).1, by simp [siteIndexFromHeightAge],
    (siteIndexIterate_spec m sp h a t).2⟩

/-- C9: `get_sindex_err_msg` is total on the integers and agrees
everywhere with the mapping the claim states: each code −1…−12 yields its
fixed message and every other integer yields exactly "unknown issue". -/
theorem err_msg_table_total (c : Int) :
    get_sindex_err_msg c = claimed_err_msg c := by
  by_cases h1 : c = -1
  · subst h1; rfl
  by_cases h2 : c = -2
  · subst h2; rfl
  by_cases h3 : c = -3
  · subst h3; rfl
  by_cases h4 : c = -4
  · subst h4; rfl
  by_cases h5 : c = -5
  · subst h5; rfl
  by_cases h6 : c = -6
  · subst h6; rfl
  by_cases h7 : c = -7
  · subst h7; rfl
  by_cases h8 : c = -8
  · subst h8; rfl
  by_cases h9 : c = -9
  · subst h9; rfl
  by_cases h10 : c = -10
  · subst h10; rfl
  by_cases h11 : c = -11
  · subst h11; rfl
  by_cases h12 : c = -12
  · subst h12; rfl
  have e1 : (c == (-1 : Int)) = false := by simp; omega
  have e2 : (c == (-2 : Int)) = false := by simp; omega
  have e3 : (c == (-3 : Int)) = false := by simp; omega
  have e4 : (c == (-4 : Int)) = false := by simp; omega
  have e5 : (c == (-5 : Int)) = false := by simp; omega
  have e6 : (c == (-6 : Int)) = false := by simp; omega
  have e7 : (c == (-7 : Int)) = false := by simp; omega
  have e8 : (c == (-8 : Int)) = false := by simp; omega
  have e9 : (c == (-9 : Int)) = false := by simp; omega
  have e10 : (c == (-10 : Int)) = false := by simp; omega
  have e11 : (c == (-11 : Int)) = false := by simp; omega
  have e12 : (c == (-12 : Int)) = false := by simp; omega
  simp only [get_sindex_err_msg, error_messages, List.lookup, e1, e2, e3, e4,
    e5, e6, e7, e8, e9, e10, e11, e12]
  simp only [claimed_err_msg, if_neg h1, if_neg h2, if_neg h3, if_neg h4,
    if_neg h5, if_neg h6, if_neg h7, if_neg h8, if_neg h9, if_neg h10,
    if_neg h11, if_neg h12]
  rfl

/-- C10: each index-returning lookup wrapper returns either a nonnegative
index exactly as produced by the underlying library or the single
sentinel `-1`; no other negative value is ever returned, so the library's
distinct negative error codes are not observable in the returned
value. -/
theorem index_lookups_sentinel_or_value (dll : SindexDll) (sp cv rg : Int) :
    ((get_first_species dll = dll.firstSpecies ∧ 0 ≤ dll.firstSpecies) ∨
      get_first_species dll = -1) ∧
    ((get_next_species dll sp = dll.nextSpecies (toShort sp) ∧
        0 ≤ dll.nextSpecies (toShort sp)) ∨ get_next_species dll sp = -1) ∧
    ((get_def_curve dll sp = dll.defCurve (toShort sp) ∧
        0 ≤ dll.defCurve (toShort sp)) ∨ get_def_curve dll sp = -1) ∧
    ((get_def_curve_est dll sp rg = dll.defCurveEst (toShort sp) (toShort rg) ∧
        0 ≤ dll.defCurveEst (toShort sp) (toShort rg)) ∨
      get_def_curve_est dll sp rg = -1) ∧
    ((get_def_gi_curve dll sp = dll.defGICurve (toShort sp) ∧
        0 ≤ dll.defGICurve (toShort sp)) ∨ get_def_gi_curve dll sp = -1) ∧
    ((get_first_curve dll sp = dll.firstCurve (toShort sp) ∧
        0 ≤ dll.firstCurve (toShort sp)) ∨ get_first_curve dll sp = -1) ∧
    ((get_next_curve dll sp cv = dll.nextCurve (toShort sp) (toShort cv) ∧
        0 ≤ dll.nextCurve (toShort sp) (toShort cv)) ∨
      get_next_curve dll sp cv = -1) :=
  ⟨sentinel_int _, (sentinel_next _).1, sentinel_int _, sentinel_int _,
   sentinel_int _, sentinel_int _, (sentinel_next _).1⟩

end Sindex
